import Mathlib

/-!
# Verification of the CMOST per-patient Monte Carlo engine

Shallow embedding of the core simulation routines of
`python/NumberCrunching_100000.py` (natural-history engine, the
`Colonoscopy` and `RectoSigmo` procedure simulators, and the `AddCosts`
treatment-cost allocator), together with theorems settling the frozen
claims about them.

Conventions mirrored from the source:
* times are continuous years at quarter resolution (`y + (q-1)/4`),
  modelled as `ℚ`;
* cancer stages are the semantic values 7..10 (I..IV), polyp stages 1..6,
  colon locations 1..13;
* the per-patient event arrays (`Polyp_*`, `Ca_*`, `Detected_*`) keep live
  records in a gap-free prefix; a removal shifts all later entries left by
  one and zeroes the vacated tail slot;
* every Bernoulli test consumes one uniform variate, modelled as an
  explicit `ℚ` draw argument.
-/

namespace CMOST

/-- An undetected-cancer record: one live column of the `Ca_*` arrays
(`Ca_Cancer`, `Ca_CancerYear`, `Ca_CancerLocation`, `Ca_DwellTime`,
`Ca_SympTime`, `Ca_SympStage`, `Ca_TimeStage_I/II/III`). -/
structure CancerRec where
  stage : ℕ
  year : ℚ
  location : ℕ
  dwellTime : ℚ
  sympTime : ℚ
  sympStage : ℕ
  timeStage_I : ℚ
  timeStage_II : ℚ
  timeStage_III : ℚ
  deriving DecidableEq, Repr

/-- A detected-cancer record: one live column of the `Detected_*` arrays. -/
structure DetectedRec where
  stage : ℕ
  year : ℚ
  location : ℕ
  mortTime : ℚ
  deriving DecidableEq, Repr

/-- Creation of an undetected-cancer record (the common block at
`NumberCrunching_100000.py` lines 910-934, repeated at 966-988 and
1018-1040): stage starts at 7; the symptomatic-onset time `time + tmp2`,
the symptomatic-onset stage `tmp1` and the three stage-transition times
are sampled here, from the pre-drawn stage `tmp1`, sojourn time `tmp2`
and the `StageDuration` table `sd`; unreached transitions get the
sentinel 1000. -/
def mkCancer (time : ℚ) (loc : ℕ) (dwell : ℚ) (tmp1 : ℕ) (tmp2 : ℚ)
    (sd : ℕ → ℕ → ℚ) : CancerRec :=
  { stage := 7
    year := time
    location := loc
    dwellTime := dwell
    sympTime := time + tmp2
    sympStage := tmp1
    timeStage_I :=
      if 7 < tmp1 then time + ((round (tmp2 * sd (tmp1 - 7) 0 * 4) : ℤ) : ℚ) / 4 else 1000
    timeStage_II :=
      if 8 < tmp1 then
        time + ((round (tmp2 * (sd (tmp1 - 7) 0 + sd (tmp1 - 7) 1) * 4) : ℤ) : ℚ) / 4
      else 1000
    timeStage_III :=
      if 9 < tmp1 then
        time +
          ((round (tmp2 * (sd (tmp1 - 7) 0 + sd (tmp1 - 7) 1 + sd (tmp1 - 7) 2) * 4) : ℤ) : ℚ) / 4
      else 1000 }

/-- The cancer-progression step for one record (lines 1110-1120): the
stage advances one level, from 7 to 8, 8 to 9 or 9 to 10, exactly when
elapsed time has reached the corresponding pre-sampled transition time. -/
def progressCancer (time : ℚ) (c : CancerRec) : CancerRec :=
  if c.stage = 7 then (if c.timeStage_I ≤ time then { c with stage := 8 } else c)
  else if c.stage = 8 then (if c.timeStage_II ≤ time then { c with stage := 9 } else c)
  else if c.stage = 9 then (if c.timeStage_III ≤ time then { c with stage := 10 } else c)
  else c

/-- Conversion of a detected undetected-cancer record into a
detected-cancer record inside `Colonoscopy` (lines 202-206): the detected
stage and location are copied from the undetected record, the detection
year is `y + (q-1)/4`, and a mortality countdown `mort` is freshly drawn
from the `MortalityMatrix`. -/
def detectCancer (y q : ℕ) (mort : ℚ) (c : CancerRec) : DetectedRec :=
  { stage := c.stage
    year := (y : ℚ) + ((q : ℚ) - 1) / 4
    location := c.location
    mortTime := mort }

/-- The reach indicator built at the start of `Colonoscopy` and
`RectoSigmo` (lines 141-143 and 334-335): a 13-slot 0/1 vector with ones
at the drawn reach location (1 = cecum, 13 = rectum) and everything
distal to it. -/
def currentReachMatrix (reach : ℕ) : List ℚ :=
  (List.range 13).map (fun i => if reach - 1 ≤ i then 1 else 0)

/-- The reach gate applied to a finding at (1-based) location `loc`
(lines 153-155 and 196-197): the finding can only be detected when
`CurrentReachMatrix[loc] == 1`. -/
def reachGateOpen (reach loc : ℕ) : Prop :=
  (currentReachMatrix reach).getD (loc - 1) 0 = 1

instance (reach loc : ℕ) : Decidable (reachGateOpen reach loc) := by
  unfold reachGateOpen; infer_instance

/-- The symptom-development scan (lines 1074-1105): undetected cancers
are scanned (highest slot first) and as soon as elapsed time has reached
one record's pre-sampled symptomatic-onset time, one colonoscopy with
indication Symp is performed and the scan breaks.  The result counts the
symptomatic colonoscopies performed this quarter given the scanned list
of symptomatic-onset times. -/
def sympScan (time : ℚ) : List ℚ → ℕ
  | [] => 0
  | t :: rest => if t ≤ time then 1 else sympScan time rest

/-- The detection counter of `Colonoscopy` over the cancer scan
(lines 191-232): starting from the number of polyps removed, each
detected cancer sets the counter to -1 when it is still 0 and leaves it
unchanged otherwise. -/
def cancerDetectLoop : List Bool → ℤ → ℤ
  | [], counter => counter
  | d :: rest, counter =>
      cancerDetectLoop rest (if d then (if counter = 0 then -1 else counter) else counter)

/-- The three colonoscopy billing tiers (lines 253-264). -/
inductive BillTier where
  | noFinding
  | cancerFound
  | polypFound
  deriving DecidableEq, Repr

/-- Billing-tier selection from the final counter (lines 253-264):
counter 0 bills the plain tier, counter -1 the cancer tier, anything
else (a positive polyp-removal count) the polyp tier. -/
def billTier (counter : ℤ) : BillTier :=
  if counter = 0 then BillTier.noFinding
  else if counter = -1 then BillTier.cancerFound
  else BillTier.polypFound

lemma cancerDetectLoop_neg_one (detects : List Bool) :
    cancerDetectLoop detects (-1) = -1 := by
  induction detects with
  | nil => rfl
  | cons d rest ih => cases d <;> simpa [cancerDetectLoop] using ih

lemma cancerDetectLoop_eval (detects : List Bool) (n : ℤ) (hn : 0 ≤ n) :
    cancerDetectLoop detects n = if n = 0 ∧ true ∈ detects then -1 else n := by
  induction detects with
  | nil => simp [cancerDetectLoop]
  | cons d rest ih =>
      cases d with
      | false => simpa [cancerDetectLoop] using ih
      | true =>
          by_cases h0 : n = 0
          · subst h0
            simp [cancerDetectLoop, cancerDetectLoop_neg_one]
          · simp [cancerDetectLoop, h0, ih]

/-- C7: In every quarter, the symptom scan performs at most one
colonoscopy, and it performs exactly one precisely when elapsed time has
reached at least one scanned record's symptomatic-onset time. -/
theorem symptomatic_colonoscopy_once (time : ℚ) (l : List ℚ) :
    sympScan time l ≤ 1 ∧ (sympScan time l = 1 ↔ ∃ t ∈ l, t ≤ time) := by
  induction l with
  | nil => simp [sympScan]
  | cons t rest ih =>
      by_cases h : t ≤ time
      · simp [sympScan, h]
      · simpa [sympScan, h] using ih

/-- C9: The cancer-found billing tier is selected iff at least one
cancer was detected and no polyp was removed; whenever at least one
polyp was removed the visit bills the polyp tier, even if a cancer was
also detected. -/
theorem colonoscopy_billing_tier (detects : List Bool) (nPolyp : ℕ) :
    (billTier (cancerDetectLoop detects (nPolyp : ℤ)) = BillTier.cancerFound ↔
      (true ∈ detects ∧ nPolyp = 0)) ∧
    (0 < nPolyp → billTier (cancerDetectLoop detects (nPolyp : ℤ)) = BillTier.polypFound) := by
  rw [cancerDetectLoop_eval detects (nPolyp : ℤ) (by positivity)]
  constructor
  · by_cases h0 : (nPolyp : ℤ) = 0
    · by_cases hd : true ∈ detects <;> simp_all [billTier]
    · simp only [h0, false_and, if_false]
      unfold billTier
      rw [if_neg h0, if_neg (by omega)]
      simp
      omega
  · intro hp
    rw [if_neg (by omega)]
    unfold billTier
    rw [if_neg (by omega), if_neg (by omega)]

/-- Witness for C9: a visit with one detected cancer and no removed
polyp bills the cancer tier; a visit with three removed polyps bills the
polyp tier even though a cancer was detected. -/
theorem colonoscopy_billing_tier_witness :
    billTier (cancerDetectLoop [false, true] (0 : ℕ)) = BillTier.cancerFound ∧
    billTier (cancerDetectLoop [true] (3 : ℕ)) = BillTier.polypFound :=
  ⟨(colonoscopy_billing_tier [false, true] 0).1.mpr (by simp),
   (colonoscopy_billing_tier [true] 3).2 (by norm_num)⟩

/-- The per-polyp risk multiplier in the progression step
(lines 955-956): the early-progression percentile weight below stage 5,
the advanced-progression percentile weight from stage 5 on, combined with
the 0/1 arithmetic of the source. -/
def riskMult (earlyRisk advRisk : ℕ → ℚ) (stage earlyP advP : ℕ) : ℚ :=
  (if stage < 5 then 1 else 0) * earlyRisk (earlyP - 1) +
    (if 4 < stage then 1 else 0) * advRisk (advP - 1)

/-- The fast-track cancer-conversion probability (lines 1003-1016):
the stage-specific fast-cancer rate times the advanced-row (index 5) age,
location and gender multipliers, with the risk-percentile weight `rm`
multiplied in under the Fast dwell-speed configuration and omitted under
Slow, written with the same 0/1 string-comparison arithmetic as the
source. -/
def fastCancerProb (dwellSpeed : String) (fastCancer : ℕ → ℚ)
    (ageAdv locAdv genAdv rm : ℚ) (stage : ℕ) : ℚ :=
  (if dwellSpeed = "Slow" then 1 else 0) *
      (fastCancer (stage - 1) * ageAdv * locAdv * genAdv) +
    (if dwellSpeed = "Fast" then 1 else 0) *
      (fastCancer (stage - 1) * ageAdv * locAdv * genAdv) * rm

/-- Which of the two mutually exclusive conversion paths of the polyp
progression step fires (lines 962 and 1003): the ordinary progression
draw `r1` is tested first; the fast-track draw `r2` is tested only in the
else-branch. -/
inductive PolypPath where
  | progress
  | fastTrack
  | stay
  deriving DecidableEq, Repr

/-- The if/elif decision of the polyp progression step (lines 962-1016). -/
def polypStepPath (r1 r2 progProb fastProb : ℚ) : PolypPath :=
  if r1 < progProb then PolypPath.progress
  else if r2 < fastProb then PolypPath.fastTrack
  else PolypPath.stay

/-- The flag triple returned by `RectoSigmo`. -/
structure RSFlags where
  polypFlag : ℚ
  advPolypFlag : ℚ
  cancerFlag : ℚ
  deriving DecidableEq, Repr

/-- The complication tail of `RectoSigmo` (lines 431-442): when the
perforation draw fires and the subsequent death draw fires, the patient
is excluded with death cause 3 and the returned `CancerFlag` and
`PolypFlag` are reset to 0 — `AdvPolypFlag` is left unchanged.  The
result is (returned flags, Included, DeathCause). -/
def rsComplicationStep (perfDraw deathDraw perfRisk deathRisk : ℚ)
    (fl : RSFlags) (included : Bool) (deathCause : ℚ) : RSFlags × Bool × ℚ :=
  if perfDraw < perfRisk then
    (if deathDraw < deathRisk then
      ({ fl with cancerFlag := 0, polypFlag := 0 }, false, 3)
    else (fl, included, deathCause))
  else (fl, included, deathCause)

/-- The screening dispatcher's reflex-colonoscopy condition on the flags
returned by `RectoSigmo` (line 1241, Python float truthiness of
PolypFlag or CancerFlag or AdvPolypFlag). -/
def reflexColoCondition (fl : RSFlags) : Prop :=
  fl.polypFlag ≠ 0 ∨ fl.cancerFlag ≠ 0 ∨ fl.advPolypFlag ≠ 0

lemma progressCancer_sampled_fields (time : ℚ) (c : CancerRec) :
    (progressCancer time c).sympTime = c.sympTime ∧
    (progressCancer time c).sympStage = c.sympStage ∧
    (progressCancer time c).timeStage_I = c.timeStage_I ∧
    (progressCancer time c).timeStage_II = c.timeStage_II ∧
    (progressCancer time c).timeStage_III = c.timeStage_III := by
  unfold progressCancer
  split_ifs <;> exact ⟨rfl, rfl, rfl, rfl, rfl⟩

lemma progressCancer_stage_mono (time : ℚ) (c : CancerRec) :
    c.stage ≤ (progressCancer time c).stage ∧
    (progressCancer time c).stage ≤ c.stage + 1 := by
  unfold progressCancer
  split_ifs <;> simp_all

lemma progressCancer_stage7 (time : ℚ) (c : CancerRec) (h : c.stage = 7) :
    (progressCancer time c).stage = if c.timeStage_I ≤ time then 8 else 7 := by
  unfold progressCancer
  rw [if_pos h]
  split_ifs with h1
  · rfl
  · exact h

lemma progressCancer_stage8 (time : ℚ) (c : CancerRec) (h : c.stage = 8) :
    (progressCancer time c).stage = if c.timeStage_II ≤ time then 9 else 8 := by
  unfold progressCancer
  rw [if_neg (by omega), if_pos h]
  split_ifs with h1
  · rfl
  · exact h

lemma progressCancer_stage9 (time : ℚ) (c : CancerRec) (h : c.stage = 9) :
    (progressCancer time c).stage = if c.timeStage_III ≤ time then 10 else 9 := by
  unfold progressCancer
  rw [if_neg (by omega), if_neg (by omega), if_pos h]
  split_ifs with h1
  · rfl
  · exact h

lemma progressCancer_stage10 (time : ℚ) (c : CancerRec) (h : c.stage = 10) :
    (progressCancer time c).stage = 10 := by
  unfold progressCancer
  rw [if_neg (by omega), if_neg (by omega), if_neg (by omega)]
  exact h

/-- One polyp-progression stage update (lines 962-963): when the draw
fires the stage is incremented. -/
def progressStage (r p : ℚ) (stage : ℕ) : ℕ :=
  if r < p then stage + 1 else stage

/-- One polyp healing update (lines 1060-1063): when the draw against the
stage-specific healing probability fires, the stage is decremented (and
the polyp is removed when it reaches 0). -/
def healPolyp (healing : List ℚ) (r : ℚ) (stage : ℕ) : ℕ :=
  if r < healing.getD (stage - 1) 0 then stage - 1 else stage

/-- The shift-left removal of `_shift_left_polyp` / `_shift_left_cancer`
(lines 62-94), on one per-patient row viewed as a function from slot
index to value: slots `f..l` receive the old slots `f+1..l` followed by a
zeroed tail slot, everything else is unchanged. -/
def shift_left (v : ℕ → ℚ) (f l : ℕ) : ℕ → ℚ :=
  fun i => if f ≤ i ∧ i ≤ l then (if i < l then v (i + 1) else 0) else v i

/-- A per-patient row holds its live records in a gap-free prefix of
length `c`: nonzero exactly on the first `c` slots. -/
def isCompact (v : ℕ → ℚ) (c : ℕ) : Prop :=
  ∀ i, (i < c → v i ≠ 0) ∧ (c ≤ i → v i = 0)

lemma shift_left_compact (v : ℕ → ℚ) (c f : ℕ) (hv : isCompact v c) (hf : f < c) :
    isCompact (shift_left v f (c - 1)) (c - 1) ∧
    (∀ i, i < c - 1 → shift_left v f (c - 1) i = if i < f then v i else v (i + 1)) := by
  have hvals : ∀ i, i < c - 1 → shift_left v f (c - 1) i = if i < f then v i else v (i + 1) := by
    intro i hi
    unfold shift_left
    by_cases hif : i < f
    · rw [if_neg (by omega), if_pos hif]
    · rw [if_pos ⟨by omega, by omega⟩, if_pos (by omega), if_neg hif]
  refine ⟨fun i => ⟨fun hi => ?_, fun hi => ?_⟩, hvals⟩
  · rw [hvals i hi]
    by_cases hif : i < f
    · rw [if_pos hif]
      exact (hv i).1 (by omega)
    · rw [if_neg hif]
      exact (hv (i + 1)).1 (by omega)
  · unfold shift_left
    by_cases hil : i ≤ c - 1
    · rw [if_pos ⟨by omega, hil⟩, if_neg (by omega)]
    · rw [if_neg (by omega)]
      exact (hv i).2 (by omega)

/-- A polyp record: one live column of the `Polyp_*` arrays. -/
structure PolypRec where
  stage : ℕ
  year : ℚ
  location : ℕ
  earlyProgression : ℕ
  advProgression : ℕ
  deriving DecidableEq, Repr

/-- New-polyp onset (lines 881-901): the append is guarded by
`pos < 50`; at capacity the event is silently dropped and the row is
returned unchanged. -/
def newPolypOnset (ps : List PolypRec) (p : PolypRec) : List PolypRec :=
  if ps.length < 50 then ps ++ [p] else ps

/-- Direct cancer onset (lines 905-934): the append is guarded by
`l2 < 25`; at capacity the event is silently dropped. -/
def directCancerOnset (cs : List CancerRec) (c : CancerRec) : List CancerRec :=
  if cs.length < 25 then cs ++ [c] else cs

/-- Progression-to-cancer and fast-track conversion (lines 964-988 and
1016-1040): the new record is written at index `count_nonzero` of the
25-wide `Ca_*` arrays with NO capacity guard; writing at index 25 falls
outside the array (an IndexError in the source), modelled as `none`. -/
def polypToCancerAppend (cs : List CancerRec) (c : CancerRec) : Option (List CancerRec) :=
  if cs.length < 25 then some (cs ++ [c]) else none

/-- Cancer detection in `Colonoscopy` (lines 199-206): the detected
record is written at index `count_nonzero` of the 50-wide `Detected_*`
arrays with NO capacity guard; writing at index 50 falls outside the
array, modelled as `none`. -/
def detectedCancerAppend (ds : List DetectedRec) (d : DetectedRec) : Option (List DetectedRec) :=
  if ds.length < 50 then some (ds ++ [d]) else none

/-- C1: For an undetected-cancer record, the symptomatic-onset time and
stage and the three transition times are set at creation and preserved by
the progression step; the progression step never lowers the stage,
advances it by at most one level per quarter, and advances it exactly
when elapsed time has reached the corresponding pre-sampled transition
time; colonoscopy detection copies the record's current stage into the
detected-cancer record. -/
theorem cancer_record_invariants (time mort : ℚ) (c : CancerRec) (y q : ℕ)
    (t : ℚ) (loc : ℕ) (dw : ℚ) (s1 : ℕ) (s2 : ℚ) (sd : ℕ → ℕ → ℚ) :
    (progressCancer time c).sympTime = c.sympTime ∧
    (progressCancer time c).sympStage = c.sympStage ∧
    (progressCancer time c).timeStage_I = c.timeStage_I ∧
    (progressCancer time c).timeStage_II = c.timeStage_II ∧
    (progressCancer time c).timeStage_III = c.timeStage_III ∧
    c.stage ≤ (progressCancer time c).stage ∧
    (progressCancer time c).stage ≤ c.stage + 1 ∧
    (c.stage = 7 → (progressCancer time c).stage = if c.timeStage_I ≤ time then 8 else 7) ∧
    (c.stage = 8 → (progressCancer time c).stage = if c.timeStage_II ≤ time then 9 else 8) ∧
    (c.stage = 9 → (progressCancer time c).stage = if c.timeStage_III ≤ time then 10 else 9) ∧
    (c.stage = 10 → (progressCancer time c).stage = 10) ∧
    (detectCancer y q mort c).stage = c.stage ∧
    (detectCancer y q mort c).location = c.location ∧
    (mkCancer t loc dw s1 s2 sd).stage = 7 ∧
    (mkCancer t loc dw s1 s2 sd).sympTime = t + s2 ∧
    (mkCancer t loc dw s1 s2 sd).sympStage = s1 := by
  obtain ⟨h1, h2, h3, h4, h5⟩ := progressCancer_sampled_fields time c
  obtain ⟨h6, h7⟩ := progressCancer_stage_mono time c
  exact ⟨h1, h2, h3, h4, h5, h6, h7,
    progressCancer_stage7 time c, progressCancer_stage8 time c,
    progressCancer_stage9 time c, progressCancer_stage10 time c,
    rfl, rfl, rfl, rfl, rfl⟩

/-- A concrete undetected-cancer record at stage 7 (I), formed at year
10, location 3, with symptomatic onset at 14 and transition times 11, 13
and the never-sentinel 1000. -/
def exampleCancerRec : CancerRec :=
  { stage := 7, year := 10, location := 3, dwellTime := 0,
    sympTime := 14, sympStage := 9,
    timeStage_I := 11, timeStage_II := 13, timeStage_III := 1000 }

/-- Witness for C1: at time 11 the example stage-7 record keeps its
sampled symptomatic-onset time and advances to stage 8, and its
detection copies stage 8 into the detected record. -/
theorem cancer_record_invariants_witness :
    exampleCancerRec.stage = 7 ∧
    (progressCancer 11 exampleCancerRec).sympTime = exampleCancerRec.sympTime ∧
    (progressCancer 11 exampleCancerRec).stage =
      if exampleCancerRec.timeStage_I ≤ 11 then 8 else 7 := by
  have h := cancer_record_invariants 11 2 exampleCancerRec 11 1 10 3 0 9 4 (fun _ _ => 1)
  exact ⟨rfl, h.1, h.2.2.2.2.2.2.2.1 rfl⟩

/-- C6: The fast-track conversion draw is evaluated only when the
ordinary progression draw did not fire, and the fast-track probability is
the stage-specific fast-cancer rate times the advanced age, location and
gender multipliers, with the risk-percentile weight multiplied in exactly
under the Fast dwell-speed configuration and omitted under Slow. -/
theorem fast_track_exclusive_and_risk_weighting (ds : String) (fc : ℕ → ℚ)
    (ageAdv locAdv genAdv rm r1 r2 p : ℚ) (stage : ℕ) :
    (polypStepPath r1 r2 p (fastCancerProb ds fc ageAdv locAdv genAdv rm stage) =
        PolypPath.fastTrack → ¬ r1 < p) ∧
    (ds = "Fast" →
      fastCancerProb ds fc ageAdv locAdv genAdv rm stage =
        fc (stage - 1) * ageAdv * locAdv * genAdv * rm) ∧
    (ds = "Slow" →
      fastCancerProb ds fc ageAdv locAdv genAdv rm stage =
        fc (stage - 1) * ageAdv * locAdv * genAdv) := by
  refine ⟨?_, ?_, ?_⟩
  · intro hpath hr1
    simp [polypStepPath, hr1] at hpath
  · intro hds
    subst hds
    simp [fastCancerProb]
  · intro hds
    subst hds
    simp [fastCancerProb]

/-- Witness for C6: under the Fast configuration with rate 1/2,
multipliers 1 and risk weight 2, the fast-track probability evaluates to
(1/2)·1·1·1·2, and a run where the progression draw fired never takes
the fast-track path. -/
theorem fast_track_exclusive_and_risk_weighting_witness :
    fastCancerProb "Fast" (fun _ => 1/2) 1 1 1 2 3 = 1/2 * 1 * 1 * 1 * 2 ∧
    fastCancerProb "Slow" (fun _ => 1/2) 1 1 1 2 3 = 1/2 * 1 * 1 * 1 :=
  ⟨(fast_track_exclusive_and_risk_weighting "Fast" (fun _ => 1/2) 1 1 1 2 0 0 1 3).2.1 rfl,
   (fast_track_exclusive_and_risk_weighting "Slow" (fun _ => 1/2) 1 1 1 2 0 0 1 3).2.2 rfl⟩

/-- C10: When a rectosigmoidoscopy perforation kills the patient, the
returned PolypFlag and CancerFlag are reset to 0, AdvPolypFlag is left
unchanged, the patient is excluded with death cause 3 — and whenever an
advanced-polyp signal was raised earlier in the visit, the dispatcher's
reflex-colonoscopy condition still holds on the already-excluded
patient. -/
theorem rs_perforation_death_flags (perfDraw deathDraw perfRisk deathRisk dc : ℚ)
    (fl : RSFlags) (inc : Bool)
    (hp : perfDraw < perfRisk) (hd : deathDraw < deathRisk) :
    (rsComplicationStep perfDraw deathDraw perfRisk deathRisk fl inc dc).1.polypFlag = 0 ∧
    (rsComplicationStep perfDraw deathDraw perfRisk deathRisk fl inc dc).1.cancerFlag = 0 ∧
    (rsComplicationStep perfDraw deathDraw perfRisk deathRisk fl inc dc).1.advPolypFlag =
      fl.advPolypFlag ∧
    (rsComplicationStep perfDraw deathDraw perfRisk deathRisk fl inc dc).2.1 = false ∧
    (rsComplicationStep perfDraw deathDraw perfRisk deathRisk fl inc dc).2.2 = 3 ∧
    (fl.advPolypFlag ≠ 0 →
      reflexColoCondition (rsComplicationStep perfDraw deathDraw perfRisk deathRisk fl inc dc).1 ∧
      (rsComplicationStep perfDraw deathDraw perfRisk deathRisk fl inc dc).2.1 = false) := by
  unfold rsComplicationStep
  rw [if_pos hp, if_pos hd]
  refine ⟨rfl, rfl, rfl, rfl, rfl, fun ha => ⟨?_, rfl⟩⟩
  exact Or.inr (Or.inr ha)

/-- Witness for C10: draws 0 against risks 1 kill the patient during a
visit that had raised the advanced-polyp signal; the returned flags are
(0, 1, 0), the patient is excluded, and the reflex-colonoscopy condition
holds. -/
theorem rs_perforation_death_flags_witness :
    (rsComplicationStep 0 0 1 1 ⟨1, 1, 1⟩ true 0).1.advPolypFlag = 1 ∧
    (rsComplicationStep 0 0 1 1 ⟨1, 1, 1⟩ true 0).2.1 = false ∧
    reflexColoCondition (rsComplicationStep 0 0 1 1 ⟨1, 1, 1⟩ true 0).1 := by
  have h := rs_perforation_death_flags 0 0 1 1 0 ⟨1, 1, 1⟩ true
    (by norm_num) (by norm_num)
  exact ⟨h.2.2.1, h.2.2.2.1, (h.2.2.2.2.2 (by norm_num)).1⟩

/-- C5: A colonoscopy whose reach draw resolves to location 1 (cecum)
opens the reach gate at all 13 locations; a reach draw resolving to
location 13 (rectum) opens it only at location 13. -/
theorem colonoscopy_reach_semantics :
    (∀ loc : Fin 13, reachGateOpen 1 (loc.val + 1)) ∧
    (∀ loc : Fin 13, reachGateOpen 13 (loc.val + 1) ↔ loc.val + 1 = 13) := by
  decide

/-- A concrete detected-cancer record. -/
def exampleDetectedRec : DetectedRec :=
  { stage := 8, year := 10, location := 3, mortTime := 5 }

/-- A concrete polyp record. -/
def examplePolypRec : PolypRec :=
  { stage := 1, year := 10, location := 3, earlyProgression := 100, advProgression := 100 }

/-- Counterexample to C2 as stated: a polyp progression-to-cancer (or
fast-track) conversion arriving with the undetected-cancer row already
holding 25 live records, and a cancer detection arriving with the
detected-cancer row already holding 50 live records, are NOT silently
discarded — the unguarded write at index `count` falls outside the
fixed-width array (an IndexError in the source), modelled as `none`. -/
theorem cancer_append_overflow_raises :
    polypToCancerAppend (List.replicate 25 exampleCancerRec) exampleCancerRec = none ∧
    detectedCancerAppend (List.replicate 50 exampleDetectedRec) exampleDetectedRec = none := by
  constructor <;> simp [polypToCancerAppend, detectedCancerAppend]

/-- C2 (amended): New-polyp onset and direct cancer onset silently
discard an event that would exceed capacity (50 polyp slots, 25
undetected-cancer slots), leaving the row unchanged and never exceeding
capacity; polyp progression-to-cancer, fast-track conversion and cancer
detection perform no capacity check, and their append fails with an
out-of-bounds write (rather than a silent discard) exactly when the row
is already full. -/
theorem capacity_checked_and_unchecked :
    (∀ (ps : List PolypRec) (p : PolypRec), ps.length ≤ 50 → (newPolypOnset ps p).length ≤ 50) ∧
    (∀ (ps : List PolypRec) (p : PolypRec), ps.length = 50 → newPolypOnset ps p = ps) ∧
    (∀ (cs : List CancerRec) (c : CancerRec), cs.length ≤ 25 →
      (directCancerOnset cs c).length ≤ 25) ∧
    (∀ (cs : List CancerRec) (c : CancerRec), cs.length = 25 → directCancerOnset cs c = cs) ∧
    (∀ (cs : List CancerRec) (c : CancerRec),
      polypToCancerAppend cs c = none ↔ 25 ≤ cs.length) ∧
    (∀ (ds : List DetectedRec) (d : DetectedRec),
      detectedCancerAppend ds d = none ↔ 50 ≤ ds.length) := by
  refine ⟨fun ps p h => ?_, fun ps p h => ?_, fun cs c h => ?_, fun cs c h => ?_,
    fun cs c => ?_, fun ds d => ?_⟩
  · unfold newPolypOnset
    split_ifs with hl
    · simp
      omega
    · exact h
  · unfold newPolypOnset
    rw [if_neg (by omega)]
  · unfold directCancerOnset
    split_ifs with hl
    · simp
      omega
    · exact h
  · unfold directCancerOnset
    rw [if_neg (by omega)]
  · unfold polypToCancerAppend
    split_ifs with hl
    · simp
      omega
    · simp
      omega
  · unfold detectedCancerAppend
    split_ifs with hl
    · simp
      omega
    · simp
      omega

/-- Witness for C2 (amended): appending a polyp to an empty row stays
within capacity, and a direct cancer onset at a full 25-record row is
silently discarded. -/
theorem capacity_checked_and_unchecked_witness :
    (newPolypOnset [] examplePolypRec).length ≤ 50 ∧
    directCancerOnset (List.replicate 25 exampleCancerRec) exampleCancerRec =
      List.replicate 25 exampleCancerRec :=
  ⟨capacity_checked_and_unchecked.1 [] examplePolypRec (by simp),
   capacity_checked_and_unchecked.2.2.2.1 (List.replicate 25 exampleCancerRec)
     exampleCancerRec (by simp)⟩

/-- Counterexample to C4 as stated: the healing step (lines 1060-1063)
lowers the stage of an existing polyp record — a stage-2 polyp whose
healing draw 0 fires against healing probability 1 drops to stage 1,
which is strictly lower while the record still exists (stage 1 is not the
removal value 0). -/
theorem healing_lowers_polyp_stage :
    healPolyp [0, 1, 0, 0, 0, 0] 0 2 = 1 ∧ (1 : ℕ) < 2 ∧ (1 : ℕ) ≠ 0 := by
  refine ⟨?_, by omega, by omega⟩
  norm_num [healPolyp]

/-- C4 (amended): A polyp record's stage is never lowered by the
progression step; it is lowered only by the healing step, by exactly one
level, precisely when the healing draw fires; and every shift-left
removal from a gap-free live prefix leaves a gap-free live prefix one
shorter whose surviving slots hold exactly the old values with the
removed slot skipped. -/
theorem polyp_stage_and_removal_compaction :
    (∀ (r p : ℚ) (stage : ℕ), stage ≤ progressStage r p stage) ∧
    (∀ (healing : List ℚ) (r : ℚ) (stage : ℕ), 1 ≤ stage →
      (r < healing.getD (stage - 1) 0 → healPolyp healing r stage = stage - 1) ∧
      (¬ r < healing.getD (stage - 1) 0 → healPolyp healing r stage = stage)) ∧
    (∀ (v : ℕ → ℚ) (c f : ℕ), isCompact v c → f < c →
      isCompact (shift_left v f (c - 1)) (c - 1) ∧
      (∀ i, i < c - 1 → shift_left v f (c - 1) i = if i < f then v i else v (i + 1))) := by
  refine ⟨fun r p stage => ?_, fun healing r stage _ => ⟨fun h => ?_, fun h => ?_⟩,
    fun v c f hv hf => shift_left_compact v c f hv hf⟩
  · unfold progressStage
    split_ifs <;> omega
  · unfold healPolyp
    rw [if_pos h]
  · unfold healPolyp
    rw [if_neg h]

/-- A concrete gap-free row with three live slots. -/
def exampleRow : ℕ → ℚ := fun i => if i < 3 then 1 else 0

lemma exampleRow_compact : isCompact exampleRow 3 := by
  intro i
  constructor <;> intro h <;> unfold exampleRow
  · rw [if_pos h]
    norm_num
  · rw [if_neg (by omega)]

/-- Witness for C4 (amended): a stage-2 polyp whose healing draw fires
drops to stage 1, and removing slot 0 from a 3-slot gap-free row leaves
a 2-slot gap-free row. -/
theorem polyp_stage_and_removal_compaction_witness :
    healPolyp [0, 1/2] (1/4) 2 = 1 ∧ isCompact (shift_left exampleRow 0 2) 2 :=
  ⟨(polyp_stage_and_removal_compaction.2.1 [0, 1/2] (1/4) 2 (by omega)).1
      (by norm_num [List.getD]),
   (polyp_stage_and_removal_compaction.2.2 exampleRow 3 0 exampleRow_compact (by omega)).1⟩

/-- The stage-tiered treatment-cost rate tables consumed by `AddCosts`
(the CostStage keys Initial / Cont / Final; the future-cost tables
FutInitial / FutCont / FutFinal have the identical bucketing and are an
instance of the same structure), indexed by the 0-based stage index. -/
structure CostStage where
  Initial : ℕ → ℚ
  Cont : ℕ → ℚ
  Final : ℕ → ℚ

/-- The quarterly treatment cost that `AddCosts` (lines 461-561) writes
into the `SubCost` row of one detected cancer, at (0-based) quarter `j`,
for a record detected at `start` with terminal time `ende` and mode
other-cause (`isOC = true`) or tumor.  The four duration regimes of the
source are reproduced, with later array writes taking priority over
earlier ones exactly as sequential slice assignment does; these
quarterly values are what the summation loop (lines 563-570) adds into
the `Money_Treatment` / `Money_FutureTreatment` accumulators. -/
def subCostQuarter (cs : CostStage) (si : ℕ) (isOC : Bool) (start ende : ℚ) (j : ℤ) : ℚ :=
  let diff := ende - start
  let sq := ⌊start * 4⌋
  let endq := ⌊ende * 4⌋
  if diff ≤ 1/4 then
    (if j = sq then cs.Initial si else 0)
  else if diff ≤ 5/4 then
    (if sq + 1 ≤ j ∧ j < endq then (if isOC then cs.Cont si / 4 else cs.Final si / 4)
     else if j = sq then cs.Initial si else 0)
  else if diff ≤ 5 then
    (if ⌊(ende - 1) * 4⌋ ≤ j ∧ j < endq then (if isOC then cs.Cont si / 4 else cs.Final si / 4)
     else if sq + 1 ≤ j ∧ j < ⌊(ende - 1) * 4⌋ then cs.Cont si / 4
     else if j = sq then cs.Initial si else 0)
  else
    (if sq + 1 ≤ j ∧ j < endq then cs.Cont si / 4
     else if j = sq then cs.Initial si else 0)

/-- The totals one detected-cancer record adds to the payment-type tier
counters in `AddCosts`: year-level `PaymentType_Cancer_ini/con/fin`
(`ini`, `con`, `fin`) and the number of quarter-level increments to
`PaymentType_QCancer_ini/con/fin` (`qIni`, `qCon`, `qFin`). -/
structure PayTotals where
  ini : ℚ
  con : ℚ
  fin : ℚ
  qIni : ℕ
  qCon : ℕ
  qFin : ℕ
  deriving DecidableEq, Repr

/-- The payment-type tier totals added by `AddCosts` (lines 478-561) for
one record: regime 1 (≤ 0.25y) bills the initial tier only; regime 2
(0.25-1.25y) adds the remaining quarters at the final (tumor) or
continuing (other-cause) tier; regime 3 (1.25-5y) adds full continuing
years, a fractional continuing span, and one final year at the final
(tumor) or continuing (other-cause) tier; regime 4 (> 5y) adds exactly
4 continuing years plus a fixed 0.75 fractional span, regardless of
mode, and nothing at the final tier. -/
def addCostsPay (isOC : Bool) (start ende : ℚ) : PayTotals :=
  let diff := ende - start
  if diff ≤ 1/4 then ⟨1, 0, 0, 1, 0, 0⟩
  else if diff ≤ 5/4 then
    let nq := ⌊ende * 4⌋ - (⌊start * 4⌋ + 1)
    if isOC then ⟨1, (nq : ℚ) / 4, 0, 1, nq.toNat, 0⟩
    else ⟨1, 0, (nq : ℚ) / 4, 1, 0, nq.toNat⟩
  else if diff ≤ 5 then
    let yy := ⌊diff - 5/4⌋
    let qq := diff - 5/4 - ⌊diff - 5/4⌋
    if isOC then
      ⟨1, (yy : ℚ) + qq + 1, 0, 1, (4 * yy).toNat + ⌊4 * qq⌋.toNat + 4, 0⟩
    else
      ⟨1, (yy : ℚ) + qq, 1, 1, (4 * yy).toNat + ⌊4 * qq⌋.toNat, 4⟩
  else ⟨1, 4 + 3/4, 0, 1, 16 + 3, 0⟩

/-- Concrete rate tables: initial 10, continuing 4 (so 1 per quarter),
final 7 at every stage. -/
def exampleCostStage : CostStage :=
  { Initial := fun _ => 10, Cont := fun _ => 4, Final := fun _ => 7 }

/-- Counterexample to C3 as stated: for a stage-II cancer detected at
year 5.0 with other-cause terminal time 11.0, the treatment-cost
accumulator is NOT capped after 4 continuing years plus a partial fifth
span — quarters 40 and 43 (the sixth year after detection, beyond any
claimed window) still receive the continuing-rate cost Cont/4 = 1 ≠ 0;
the money side charges every quarter from detection to the terminal
time. -/
theorem addcosts_money_beyond_cap :
    subCostQuarter exampleCostStage 1 true 5 11 40 = 1 ∧
    subCostQuarter exampleCostStage 1 true 5 11 43 = 1 ∧
    (1 : ℚ) ≠ 0 := by
  refine ⟨?_, ?_, by norm_num⟩ <;> norm_num [subCostQuarter, exampleCostStage]

/-- C3 (amended): In the over-5-year other-cause regime of `AddCosts`,
the payment-type tier counters record exactly one initial entry, 4 + 3/4
continuing years (16 full continuing quarter marks plus a fixed 3-mark
partial fifth span) and zero final-tier entries; the money accumulator,
however, receives the initial-stage cost for the detection quarter and
the continuing-rate cost Cont/4 for EVERY quarter strictly between the
detection quarter and the terminal quarter, uncapped, and nothing
outside that window. -/
theorem addcosts_over5_regime (ct : CostStage) (si : ℕ) (start ende : ℚ)
    (h5 : 5 < ende - start) :
    (addCostsPay true start ende).ini = 1 ∧
    (addCostsPay true start ende).con = 4 + 3/4 ∧
    (addCostsPay true start ende).fin = 0 ∧
    (addCostsPay true start ende).qIni = 1 ∧
    (addCostsPay true start ende).qCon = 19 ∧
    (addCostsPay true start ende).qFin = 0 ∧
    subCostQuarter ct si true start ende ⌊start * 4⌋ = ct.Initial si ∧
    (∀ j : ℤ, ⌊start * 4⌋ + 1 ≤ j → j < ⌊ende * 4⌋ →
      subCostQuarter ct si true start ende j = ct.Cont si / 4) ∧
    (∀ j : ℤ, j < ⌊start * 4⌋ ∨ ⌊ende * 4⌋ ≤ j →
      subCostQuarter ct si true start ende j = 0) := by
  have h14 : ¬ (ende - start ≤ 1/4) := by linarith
  have h54 : ¬ (ende - start ≤ 5/4) := by linarith
  have h5' : ¬ (ende - start ≤ 5) := by linarith
  have hfl : ⌊start * 4⌋ + 20 ≤ ⌊ende * 4⌋ := by
    calc ⌊start * 4⌋ + 20 = ⌊start * 4 + (20 : ℤ)⌋ := (Int.floor_add_int _ _).symm
      _ ≤ ⌊ende * 4⌋ := Int.floor_le_floor (by push_cast; linarith)
  refine ⟨?_, ?_, ?_, ?_, ?_, ?_, ?_, ?_, ?_⟩
  · simp only [addCostsPay, h14, h54, h5', if_false]
  · simp only [addCostsPay, h14, h54, h5', if_false]
  · simp only [addCostsPay, h14, h54, h5', if_false]
  · simp only [addCostsPay, h14, h54, h5', if_false]
  · simp only [addCostsPay, h14, h54, h5', if_false]
  · simp only [addCostsPay, h14, h54, h5', if_false]
  · simp only [subCostQuarter, h14, h54, h5', if_false]
    simp
  · intro j hj1 hj2
    simp only [subCostQuarter, h14, h54, h5', if_false]
    rw [if_pos ⟨hj1, hj2⟩]
  · intro j hj
    simp only [subCostQuarter, h14, h54, h5', if_false]
    rw [if_neg (by omega), if_neg (by omega)]

/-- Witness for C3 (amended): the stage-II example — detection at year
5.0, other-cause terminal time 11.0 — records 4.75 continuing years and
no final-tier quarter marks in the tier counters, and the money
accumulator receives the initial-stage cost at the detection quarter. -/
theorem addcosts_over5_regime_witness :
    (5 : ℚ) < 11 - 5 ∧
    (addCostsPay true 5 11).con = 4 + 3/4 ∧
    (addCostsPay true 5 11).qFin = 0 ∧
    subCostQuarter exampleCostStage 1 true 5 11 ⌊(5 : ℚ) * 4⌋ = exampleCostStage.Initial 1 :=
  ⟨by norm_num,
   (addcosts_over5_regime exampleCostStage 1 5 11 (by norm_num)).2.1,
   (addcosts_over5_regime exampleCostStage 1 5 11 (by norm_num)).2.2.2.2.2.1,
   (addcosts_over5_regime exampleCostStage 1 5 11 (by norm_num)).2.2.2.2.2.2.1⟩

end CMOST
